import Mathlib

/-!
Shallow embedding of `src/rpc/parsers.ts` of the js-stellar-sdk repository:
the response-normalization layer that converts raw RPC responses (with
base64-encoded XDR payload fields) into parsed, decoded domain objects.

Modelling conventions:
* XDR-decoded values are opaque to the parsers, so each XDR type is a free
  inductive over the base64 string it was decoded from (`fromXdr s`); the
  parsers never inspect decoded values except `xdr.TransactionMeta`, whose
  union tag and v3/sorobanMeta fields the transaction-info parser reads.
  That decoder is therefore passed as an explicit function argument.
* Optional/possibly-absent JS fields are `Option`; JS string truthiness
  (`if (s)`) is "present and non-empty"; `null` is `Option.none`.
* `parseRawSendTransaction` mutates its argument (it `delete`s two fields),
  so it is embedded in state-passing style: it returns the post-call state
  of its argument alongside the result.
* Thrown `TypeError`s are embedded with `Except`.
-/

namespace StellarRpc

/-- Opaque decoded `xdr.DiagnosticEvent` (`DiagnosticEvent.fromXDR(s, 'base64')`). -/
inductive DiagnosticEvent where
  | fromXdr (s : String)
deriving DecidableEq, Repr

/-- Opaque decoded `xdr.TransactionResult`. -/
inductive TransactionResult where
  | fromXdr (s : String)
deriving DecidableEq, Repr

/-- Opaque decoded `xdr.TransactionEnvelope`. -/
inductive TransactionEnvelope where
  | fromXdr (s : String)
deriving DecidableEq, Repr

/-- Decoded `xdr.ScVal`: either decoded from a base64 string, or the canonical
void value `xdr.ScVal.scvVoid()` substituted by the simulation parser. -/
inductive ScVal where
  | fromXdr (s : String)
  | scvVoid
deriving DecidableEq, Repr

/-- Opaque decoded `xdr.LedgerKey`. -/
inductive LedgerKey where
  | fromXdr (s : String)
deriving DecidableEq, Repr

/-- Opaque decoded `xdr.LedgerEntryData`. -/
inductive LedgerEntryData where
  | fromXdr (s : String)
deriving DecidableEq, Repr

/-- Opaque decoded `xdr.LedgerEntry`. -/
inductive LedgerEntry where
  | fromXdr (s : String)
deriving DecidableEq, Repr

/-- Opaque decoded `xdr.SorobanAuthorizationEntry`. -/
inductive SorobanAuthorizationEntry where
  | fromXdr (s : String)
deriving DecidableEq, Repr

/-- `new Contract(id)` from stellar-base: wraps a contract identifier string. -/
structure Contract where
  contractId : String
deriving DecidableEq, Repr

/-- `new SorobanDataBuilder(data)` from stellar-base: wraps the (possibly
absent, because the source applies it under a non-null assertion) base64
transaction-data string. -/
structure SorobanDataBuilder where
  sorobanData : Option String
deriving DecidableEq, Repr

/-- The sub-record `sorobanMeta` of `xdr.TransactionMetaV3`; the parser only
reads its `returnValue()`. -/
structure SorobanTransactionMeta where
  returnValue : ScVal
deriving DecidableEq, Repr

/-- `xdr.TransactionMetaV3`: the parser only reads its `sorobanMeta()`,
which may be null. -/
structure TransactionMetaV3 where
  sorobanMeta : Option SorobanTransactionMeta
deriving DecidableEq, Repr

/-- `xdr.TransactionMeta`, a union with arms v0..v3; `switch()` is the active
variant tag and only the v3 arm carries a `TransactionMetaV3`. -/
inductive TransactionMeta where
  | v0
  | v1
  | v2
  | v3 (m : TransactionMetaV3)
deriving DecidableEq, Repr

/-- `meta.switch()`: the active variant tag of the union. -/
def TransactionMeta.switch : TransactionMeta → Int
  | .v0 => 0
  | .v1 => 1
  | .v2 => 2
  | .v3 _ => 3

/- ------------------------------------------------------------------ -/
/- sendTransaction                                                     -/
/- ------------------------------------------------------------------ -/

/-- `Api.RawSendTransactionResponse`: scalar fields plus the two optional
encoded fields `errorResultXdr` and `diagnosticEventsXdr`. -/
structure RawSendTransactionResponse where
  hash : String
  status : String
  latestLedger : Nat
  latestLedgerCloseTime : Nat
  errorResultXdr : Option String
  diagnosticEventsXdr : Option (List String)
deriving DecidableEq, Repr

/-- `Api.SendTransactionResponse`: the base fields plus the decoded
`errorResult` / `diagnosticEvents` fields (both absent on the success
shape; the raw encoded fields are never present here). -/
structure SendTransactionResponse where
  hash : String
  status : String
  latestLedger : Nat
  latestLedgerCloseTime : Nat
  errorResult : Option TransactionResult
  diagnosticEvents : Option (List DiagnosticEvent)
deriving DecidableEq, Repr

/-- `parseRawSendTransaction`. The source `delete`s `errorResultXdr` and
`diagnosticEventsXdr` from its argument `r` before spreading it into the
output, so the embedding returns the post-call state of `r` together with
the parsed response. `if (errorResultXdr)` is JS truthiness: present and
non-empty. -/
def parseRawSendTransaction (r : RawSendTransactionResponse) :
    RawSendTransactionResponse × SendTransactionResponse :=
  let errorResultXdr := r.errorResultXdr
  let diagnosticEventsXdr := r.diagnosticEventsXdr
  let rMut := { r with errorResultXdr := none, diagnosticEventsXdr := none }
  match errorResultXdr with
  | some e =>
    if e = "" then
      (rMut, { hash := rMut.hash, status := rMut.status,
               latestLedger := rMut.latestLedger,
               latestLedgerCloseTime := rMut.latestLedgerCloseTime,
               errorResult := none, diagnosticEvents := none })
    else
      (rMut, { hash := rMut.hash, status := rMut.status,
               latestLedger := rMut.latestLedger,
               latestLedgerCloseTime := rMut.latestLedgerCloseTime,
               diagnosticEvents :=
                 match diagnosticEventsXdr with
                 | some evts =>
                   if evts.length > 0 then
                     some (evts.map DiagnosticEvent.fromXdr)
                   else none
                 | none => none,
               errorResult := some (TransactionResult.fromXdr e) })
  | none =>
    (rMut, { hash := rMut.hash, status := rMut.status,
             latestLedger := rMut.latestLedger,
             latestLedgerCloseTime := rMut.latestLedgerCloseTime,
             errorResult := none, diagnosticEvents := none })

/- ------------------------------------------------------------------ -/
/- getTransaction / transaction info                                   -/
/- ------------------------------------------------------------------ -/

/-- `Api.RawTransactionInfo` (restricted to the fields the parser reads;
the source reads the scalar and encoded fields under non-null assertions). -/
structure RawTransactionInfo where
  status : String
  ledger : Nat
  createdAt : Nat
  applicationOrder : Nat
  feeBump : Bool
  envelopeXdr : String
  resultXdr : String
  resultMetaXdr : String
  diagnosticEventsXdr : Option (List String)
deriving DecidableEq, Repr

/-- `Omit<Api.TransactionInfo, 'status'>`: the decoded transaction info. -/
structure TransactionInfo where
  ledger : Nat
  createdAt : Nat
  applicationOrder : Nat
  feeBump : Bool
  envelopeXdr : TransactionEnvelope
  resultXdr : TransactionResult
  resultMetaXdr : TransactionMeta
  returnValue : Option ScVal
  diagnosticEventsXdr : Option (List DiagnosticEvent)
deriving DecidableEq, Repr

/-- `parseTransactionInfo`. The codec's `xdr.TransactionMeta.fromXDR` is the
one decoder whose output the parser inspects, so it is passed explicitly as
`decodeMeta`. `returnValue` is attached only under
`meta.switch() === 3 && meta.v3().sorobanMeta() !== null`. -/
def parseTransactionInfo (decodeMeta : String → TransactionMeta)
    (raw : RawTransactionInfo) : TransactionInfo :=
  let meta := decodeMeta raw.resultMetaXdr
  { ledger := raw.ledger
    createdAt := raw.createdAt
    applicationOrder := raw.applicationOrder
    feeBump := raw.feeBump
    envelopeXdr := TransactionEnvelope.fromXdr raw.envelopeXdr
    resultXdr := TransactionResult.fromXdr raw.resultXdr
    resultMetaXdr := meta
    returnValue :=
      match meta with
      | .v3 m =>
        match m.sorobanMeta with
        | some sm => some sm.returnValue
        | none => none
      | _ => none
    diagnosticEventsXdr :=
      match raw.diagnosticEventsXdr with
      | some evts => some (evts.map DiagnosticEvent.fromXdr)
      | none => none }

/-- `parseRawTransactions`: reattaches the `status` field around
`parseTransactionInfo` (modelled as a pair since the TS output is the
spread of both). -/
def parseRawTransactions (decodeMeta : String → TransactionMeta)
    (r : RawTransactionInfo) : String × TransactionInfo :=
  (r.status, parseTransactionInfo decodeMeta r)

/- ------------------------------------------------------------------ -/
/- getEvents                                                           -/
/- ------------------------------------------------------------------ -/

/-- `Api.RawEventResponse` (the raw event record; `contractId` is a plain,
possibly empty, string). -/
structure RawEventResponse where
  type : String
  ledger : Nat
  ledgerClosedAt : String
  contractId : String
  id : String
  pagingToken : String
  inSuccessfulContractCall : Bool
  topic : List String
  value : String
deriving DecidableEq, Repr

/-- The parsed event record: all raw fields copied except `contractId`,
which becomes an optional wrapped `Contract`, and the decoded
`topic` / `value`. -/
structure EventResponse where
  type : String
  ledger : Nat
  ledgerClosedAt : String
  contractId : Option Contract
  id : String
  pagingToken : String
  inSuccessfulContractCall : Bool
  topic : List ScVal
  value : ScVal
deriving DecidableEq, Repr

/-- `Api.RawGetEventsResponse` (fields the parser reads). -/
structure RawGetEventsResponse where
  latestLedger : Nat
  events : Option (List RawEventResponse)
deriving DecidableEq, Repr

/-- `Api.GetEventsResponse`. -/
structure GetEventsResponse where
  latestLedger : Nat
  events : List EventResponse
deriving DecidableEq, Repr

/-- `parseRawEvents`: clones each event, drops the raw `contractId`, attaches
`contractId: new Contract(...)` only when the raw string is non-empty, and
decodes every topic and the value. An absent `events` list is coalesced to
`[]` by `r.events ?? []`. -/
def parseRawEvents (r : RawGetEventsResponse) : GetEventsResponse :=
  { latestLedger := r.latestLedger
    events := (r.events.getD []).map (fun evt =>
      { type := evt.type
        ledger := evt.ledger
        ledgerClosedAt := evt.ledgerClosedAt
        contractId :=
          if evt.contractId = "" then none
          else some { contractId := evt.contractId }
        id := evt.id
        pagingToken := evt.pagingToken
        inSuccessfulContractCall := evt.inSuccessfulContractCall
        topic := evt.topic.map ScVal.fromXdr
        value := ScVal.fromXdr evt.value }) }

/- ------------------------------------------------------------------ -/
/- getLedgerEntries                                                    -/
/- ------------------------------------------------------------------ -/

/-- `Api.RawLedgerEntryResult`: every field optional on the wire. -/
structure RawLedgerEntryResult where
  lastModifiedLedgerSeq : Option Nat
  key : Option String
  xdr : Option String
  liveUntilLedgerSeq : Option Nat
deriving DecidableEq, Repr

/-- The parsed ledger entry. -/
structure LedgerEntryResult where
  lastModifiedLedgerSeq : Option Nat
  key : LedgerKey
  val : LedgerEntryData
  liveUntilLedgerSeq : Option Nat
deriving DecidableEq, Repr

/-- `Api.RawGetLedgerEntriesResponse`. -/
structure RawGetLedgerEntriesResponse where
  latestLedger : Nat
  entries : Option (List RawLedgerEntryResult)
deriving DecidableEq, Repr

/-- `Api.GetLedgerEntriesResponse`. -/
structure GetLedgerEntriesResponse where
  latestLedger : Nat
  entries : List LedgerEntryResult
deriving DecidableEq, Repr

/-- The error thrown by the parsers: `parseRawLedgerEntries` throws a
`TypeError` labelled "invalid ledger entry" carrying (a stringification of)
the offending raw entry. -/
inductive ParseError where
  | malformedEntry (entry : RawLedgerEntryResult)
deriving DecidableEq, Repr

/-- JS falsiness of an optional string field: absent or empty. This is the
`!rawEntry.key || !rawEntry.xdr` test. -/
def strFalsy : Option String → Bool
  | none => true
  | some s => s = ""

/-- The per-entry body of `parseRawLedgerEntries`' `map`, sequenced
left-to-right with a thrown `TypeError` aborting the whole call. -/
def parseLedgerEntryList :
    List RawLedgerEntryResult → Except ParseError (List LedgerEntryResult)
  | [] => .ok []
  | e :: rest =>
    if strFalsy e.key || strFalsy e.xdr then
      .error (.malformedEntry e)
    else
      match parseLedgerEntryList rest with
      | .error err => .error err
      | .ok tail =>
        .ok ({ lastModifiedLedgerSeq := e.lastModifiedLedgerSeq
               key := LedgerKey.fromXdr (e.key.getD "")
               val := LedgerEntryData.fromXdr (e.xdr.getD "")
               liveUntilLedgerSeq := e.liveUntilLedgerSeq } :: tail)

/-- `parseRawLedgerEntries`: an absent `entries` list is coalesced to `[]`;
a malformed entry (falsy `key` or falsy `xdr`) aborts with a `TypeError`
identifying that entry and no partial result. -/
def parseRawLedgerEntries (raw : RawGetLedgerEntriesResponse) :
    Except ParseError GetLedgerEntriesResponse :=
  match parseLedgerEntryList (raw.entries.getD []) with
  | .error err => .error err
  | .ok entries => .ok { latestLedger := raw.latestLedger, entries := entries }

/- ------------------------------------------------------------------ -/
/- simulateTransaction                                                 -/
/- ------------------------------------------------------------------ -/

/-- The `cost` record of a simulation response (copied verbatim). -/
structure Cost where
  cpuInsns : String
  memBytes : String
deriving DecidableEq, Repr

/-- One element of the raw `results` list. -/
structure RawSimulateHostFunctionResult where
  auth : Option (List String)
  xdr : Option String
deriving DecidableEq, Repr

/-- One element of the raw `stateChanges` list
(`Api.RawLedgerEntryChange`). -/
structure RawLedgerEntryChange where
  type : Nat
  key : String
  before : Option String
  after : Option String
deriving DecidableEq, Repr

/-- The raw `restorePreamble` record. -/
structure RawRestorePreamble where
  minResourceFee : String
  transactionData : String
deriving DecidableEq, Repr

/-- `Api.RawSimulateTransactionResponse`. -/
structure RawSimulateTransactionResponse where
  id : String
  latestLedger : Nat
  error : Option String
  transactionData : Option String
  minResourceFee : Option String
  cost : Option Cost
  results : Option (List RawSimulateHostFunctionResult)
  stateChanges : Option (List RawLedgerEntryChange)
  restorePreamble : Option RawRestorePreamble
  events : Option (List String)
deriving DecidableEq, Repr

/-- The decoded scalar `result` record. -/
structure SimulateHostFunctionResult where
  auth : List SorobanAuthorizationEntry
  retval : ScVal
deriving DecidableEq, Repr

/-- The decoded `stateChanges` element (`Api.LedgerEntryChange`); `before`
and `after` are `null` (`none`) when the raw snapshot is falsy. -/
structure LedgerEntryChange where
  type : Nat
  key : LedgerKey
  before : Option LedgerEntry
  after : Option LedgerEntry
deriving DecidableEq, Repr

/-- The decoded `restorePreamble` record. -/
structure RestorePreamble where
  minResourceFee : String
  transactionData : SorobanDataBuilder
deriving DecidableEq, Repr

/-- `Api.BaseSimulateTransactionResponse`: the fields shared by all three
parsed simulation variants, including the `_parsed` marker. -/
structure BaseSimulateTransactionResponse where
  _parsed : Bool
  id : String
  latestLedger : Nat
  events : List DiagnosticEvent
deriving DecidableEq, Repr

/-- `Api.SimulateTransactionResponse`: the parsed simulation response. The
TS type is a structural union of the Error / Success / RestoreHint shapes,
discriminated by which optional fields are present; the embedding is one
record whose optional fields are `none` when the corresponding shape does
not carry them. -/
structure SimulateTransactionResponse where
  _parsed : Bool
  id : String
  latestLedger : Nat
  events : List DiagnosticEvent
  error : Option String
  transactionData : Option SorobanDataBuilder
  minResourceFee : Option String
  cost : Option Cost
  result : Option SimulateHostFunctionResult
  stateChanges : Option (List LedgerEntryChange)
  restorePreamble : Option RestorePreamble
deriving DecidableEq, Repr

/-- The input type of `parseRawSimulation`:
`Api.SimulateTransactionResponse | Api.RawSimulateTransactionResponse`. -/
def SimInput : Type :=
  SimulateTransactionResponse ⊕ RawSimulateTransactionResponse

/-- Modelled from the spec: `Api.isSimulationRaw` lives in `src/rpc/api.ts`,
which is not part of the provided sources. Per the spec it is the
shape-detection predicate that "inspects the raw input's field set to
decide whether it is already in parsed form" (the parsed form carrying the
parsed-marker base field). In this embedding the parsed and raw field sets
are the two sides of the sum, so detection is by the side of the union:
raw inputs are detected as raw, parsed ones as parsed. -/
def isSimulationRaw : SimInput → Bool
  | .inl _ => false
  | .inr _ => true

/-- The per-row body of `parseSuccessful`'s `results.map`: decode the
`auth` entries (absent list coalesced to `[]`) and the return value, with a
falsy `xdr` (absent or empty) coalesced to the canonical void value. -/
def parseHostFunctionResult (row : RawSimulateHostFunctionResult) :
    SimulateHostFunctionResult :=
  { auth := (row.auth.getD []).map SorobanAuthorizationEntry.fromXdr
    retval :=
      match row.xdr with
      | some x => if x = "" then ScVal.scvVoid else ScVal.fromXdr x
      | none => ScVal.scvVoid }

/-- The per-entry body of `parseSuccessful`'s `stateChanges.map`:
`before`/`after` become `null` (`none`) when the raw snapshot string is
falsy (absent or empty). -/
def parseLedgerEntryChange (c : RawLedgerEntryChange) : LedgerEntryChange :=
  { type := c.type
    key := LedgerKey.fromXdr c.key
    before :=
      match c.before with
      | some b => if b = "" then none else some (LedgerEntry.fromXdr b)
      | none => none
    after :=
      match c.after with
      | some a => if a = "" then none else some (LedgerEntry.fromXdr a)
      | none => none }

/-- `parseSuccessful`: builds the Success shape from the base fields, with
the 0-or-1-element `results` list coalesced into a single scalar `result`
(the guard `sim.results?.length ?? 0 > 0` parses as
`sim.results?.length ?? (0 > 0)`, i.e. "present and non-empty"; the source
maps the whole list and takes element `[0]`), `stateChanges` attached under
the same present-and-non-empty guard, and the RestoreHint shape returned
exactly when a restore preamble is present with a non-empty
`transactionData` string. -/
def parseSuccessful (sim : RawSimulateTransactionResponse)
    (baseResp : BaseSimulateTransactionResponse) :
    SimulateTransactionResponse :=
  let success : SimulateTransactionResponse :=
    { _parsed := baseResp._parsed
      id := baseResp.id
      latestLedger := baseResp.latestLedger
      events := baseResp.events
      error := none
      transactionData := some { sorobanData := sim.transactionData }
      minResourceFee := sim.minResourceFee
      cost := sim.cost
      result :=
        match sim.results with
        | some rows =>
          if rows.length > 0 then (rows.map parseHostFunctionResult).head?
          else none
        | none => none
      stateChanges :=
        match sim.stateChanges with
        | some changes =>
          if changes.length > 0 then some (changes.map parseLedgerEntryChange)
          else none
        | none => none
      restorePreamble := none }
  match sim.restorePreamble with
  | none => success
  | some rp =>
    if rp.transactionData = "" then success
    else
      { success with
        restorePreamble := some
          { minResourceFee := rp.minResourceFee
            transactionData := { sorobanData := some rp.transactionData } } }

/-- The raw branch of `parseRawSimulation`: build the shared base fields
(with the parsed-marker set), return the Error shape immediately when the
raw `error` field is a string, and delegate to `parseSuccessful`
otherwise. -/
def parseRawSimulationCore (sim : RawSimulateTransactionResponse) :
    SimulateTransactionResponse :=
  let base : BaseSimulateTransactionResponse :=
    { _parsed := true
      id := sim.id
      latestLedger := sim.latestLedger
      events := (sim.events.getD []).map DiagnosticEvent.fromXdr }
  match sim.error with
  | some err =>
    { _parsed := base._parsed
      id := base.id
      latestLedger := base.latestLedger
      events := base.events
      error := some err
      transactionData := none
      minResourceFee := none
      cost := none
      result := none
      stateChanges := none
      restorePreamble := none }
  | none => parseSuccessful sim base

/-- `parseRawSimulation`: dispatches on `isSimulationRaw` (which on this
embedding is the side of the union, see its doc comment); an input already
in parsed form is returned unchanged — the very same value — and a raw one
is parsed by `parseRawSimulationCore`. -/
def parseRawSimulation (sim : SimInput) : SimulateTransactionResponse :=
  match sim with
  | .inl p => p
  | .inr raw => parseRawSimulationCore raw

/-- The Error variant of the parsed simulation union: carries the error
string and none of the success fields. -/
def IsErrorVariant (r : SimulateTransactionResponse) : Prop :=
  r.error.isSome ∧ r.transactionData = none ∧ r.restorePreamble = none

/-- The RestoreHint variant: success fields plus a restore preamble, no
error string. -/
def IsRestoreHintVariant (r : SimulateTransactionResponse) : Prop :=
  r.error = none ∧ r.transactionData.isSome ∧ r.restorePreamble.isSome

/-- The plain Success variant: success fields, no error string, no restore
preamble. -/
def IsPlainSuccessVariant (r : SimulateTransactionResponse) : Prop :=
  r.error = none ∧ r.transactionData.isSome ∧ r.restorePreamble = none

/- ------------------------------------------------------------------ -/
/- Helper lemmas and concrete inputs                                   -/
/- ------------------------------------------------------------------ -/

/-- A list containing an entry with a missing `key` or missing `xdr` makes
`parseLedgerEntryList` abort with a malformed-entry error identifying an
offending (falsy-keyed or falsy-valued) entry of the list. -/
theorem parseLedgerEntryList_malformed (l : List RawLedgerEntryResult)
    (h : ∃ e ∈ l, e.key = none ∨ e.xdr = none) :
    ∃ e ∈ l, (strFalsy e.key || strFalsy e.xdr) = true ∧
      parseLedgerEntryList l = .error (.malformedEntry e) := by
  induction l with
  | nil =>
    rcases h with ⟨e, he, _⟩
    simp at he
  | cons a rest ih =>
    by_cases ha : (strFalsy a.key || strFalsy a.xdr) = true
    · exact ⟨a, List.mem_cons_self a rest, ha, by simp [parseLedgerEntryList, ha]⟩
    · have hrest : ∃ e ∈ rest, e.key = none ∨ e.xdr = none := by
        rcases h with ⟨e, he, hmiss⟩
        rcases List.mem_cons.mp he with rfl | hm
        · refine absurd ?_ ha
          rcases hmiss with hk | hx
          · simp [strFalsy, hk]
          · simp [strFalsy, hx]
        · exact ⟨e, hm, hmiss⟩
      rcases ih hrest with ⟨e, he, hef, heq⟩
      exact ⟨e, List.mem_cons_of_mem a he, hef,
        by simp [parseLedgerEntryList, ha, heq]⟩

/-- A concrete raw send-transaction response with a non-empty
`errorResultXdr` field. -/
def sendTxMutationInput : RawSendTransactionResponse :=
  { hash := "deadbeef"
    status := "ERROR"
    latestLedger := 1234
    latestLedgerCloseTime := 5678
    errorResultXdr := some "AAAAAAAAAGT=="
    diagnosticEventsXdr := some [] }

/-- A concrete raw ledger-entries response whose single entry is missing
its `key` field. -/
def malformedEntriesInput : RawGetLedgerEntriesResponse :=
  { latestLedger := 7
    entries := some [{ lastModifiedLedgerSeq := some 5, key := none,
                       xdr := some "AAAA", liveUntilLedgerSeq := none }] }

/- ------------------------------------------------------------------ -/
/- Claims                                                              -/
/- ------------------------------------------------------------------ -/

/-- C1: `parseRawSimulation` is idempotent — for every input `x`,
`parse(parse(x)) = parse(x)` — and a response already in parsed form is
detected as not raw by the shape predicate and returned as the very same
value. -/
theorem parseRawSimulation_idempotent :
    (∀ x : SimInput,
      parseRawSimulation (.inl (parseRawSimulation x)) = parseRawSimulation x)
    ∧ (∀ p : SimulateTransactionResponse,
        isSimulationRaw (.inl p) = false ∧ parseRawSimulation (.inl p) = p) := by
  exact ⟨fun _ => rfl, fun _ => ⟨rfl, rfl⟩⟩

/-- C2: on every raw simulation input, `parseRawSimulation` produces exactly
one of the three variants: the Error variant exactly when the raw `error`
field is a string, the RestoreHint variant exactly when there is no error
string, a restore preamble is present and its encoded `transactionData`
string is non-empty, and the plain Success variant otherwise. -/
theorem parseRawSimulation_variants (sim : RawSimulateTransactionResponse) :
    (IsErrorVariant (parseRawSimulation (.inr sim))
      ∨ IsRestoreHintVariant (parseRawSimulation (.inr sim))
      ∨ IsPlainSuccessVariant (parseRawSimulation (.inr sim)))
    ∧ ¬(IsErrorVariant (parseRawSimulation (.inr sim))
        ∧ IsRestoreHintVariant (parseRawSimulation (.inr sim)))
    ∧ ¬(IsErrorVariant (parseRawSimulation (.inr sim))
        ∧ IsPlainSuccessVariant (parseRawSimulation (.inr sim)))
    ∧ ¬(IsRestoreHintVariant (parseRawSimulation (.inr sim))
        ∧ IsPlainSuccessVariant (parseRawSimulation (.inr sim)))
    ∧ (IsErrorVariant (parseRawSimulation (.inr sim)) ↔ sim.error.isSome = true)
    ∧ (IsRestoreHintVariant (parseRawSimulation (.inr sim)) ↔
        (sim.error = none ∧
          ∃ rp, sim.restorePreamble = some rp ∧ rp.transactionData ≠ ""))
    ∧ (IsPlainSuccessVariant (parseRawSimulation (.inr sim)) ↔
        (sim.error = none ∧
          ¬∃ rp, sim.restorePreamble = some rp ∧ rp.transactionData ≠ "")) := by
  obtain ⟨id, ll, err, td, fee, cost, results, sc, rp, evts⟩ := sim
  cases err with
  | some e =>
    simp [parseRawSimulation, parseRawSimulationCore, IsErrorVariant,
      IsRestoreHintVariant, IsPlainSuccessVariant]
  | none =>
    cases rp with
    | none =>
      simp [parseRawSimulation, parseRawSimulationCore, parseSuccessful,
        IsErrorVariant, IsRestoreHintVariant, IsPlainSuccessVariant]
    | some pre =>
      by_cases hd : pre.transactionData = "" <;>
        simp [parseRawSimulation, parseRawSimulationCore, parseSuccessful,
          IsErrorVariant, IsRestoreHintVariant, IsPlainSuccessVariant, hd]

/-- C3 counterexample: `parseRawSendTransaction` is not free of effects on
its argument — on a concrete raw response carrying `errorResultXdr` and
`diagnosticEventsXdr`, the post-call state of the argument differs from its
pre-call state (the two raw fields are deleted). -/
theorem parseRawSendTransaction_mutates_input :
    (parseRawSendTransaction sendTxMutationInput).1 ≠ sendTxMutationInput := by
  decide

/-- C3 amended: `parseRawSendTransaction`'s only effect on its input is to
delete the `errorResultXdr` and `diagnosticEventsXdr` fields (the other
parsers are embedded as plain functions of their argument and touch
nothing). -/
theorem parseRawSendTransaction_input_effect (r : RawSendTransactionResponse) :
    (parseRawSendTransaction r).1 =
      { r with errorResultXdr := none, diagnosticEventsXdr := none } := by
  obtain ⟨h1, h2, h3, h4, exdr, dxdr⟩ := r
  cases exdr with
  | none => rfl
  | some e =>
    by_cases h : e = "" <;> simp [parseRawSendTransaction, h]

/-- C4: `parseRawSendTransaction` carries the base fields over unchanged,
returns the decoded `errorResult` exactly when the raw `errorResultXdr` is
non-empty (and no error shape otherwise), and attaches `diagnosticEvents`
only in the error shape and only when the raw diagnostic-events list was
non-empty — an empty raw list yields an absent field, not an empty list.
The raw `errorResultXdr`/`diagnosticEventsXdr` fields do not exist on the
output shape. -/
theorem parseRawSendTransaction_spec (r : RawSendTransactionResponse) :
    ((parseRawSendTransaction r).2.hash = r.hash)
    ∧ ((parseRawSendTransaction r).2.status = r.status)
    ∧ ((parseRawSendTransaction r).2.latestLedger = r.latestLedger)
    ∧ ((parseRawSendTransaction r).2.latestLedgerCloseTime
        = r.latestLedgerCloseTime)
    ∧ ((parseRawSendTransaction r).2.errorResult =
        match r.errorResultXdr with
        | some e => if e = "" then none else some (TransactionResult.fromXdr e)
        | none => none)
    ∧ ((parseRawSendTransaction r).2.errorResult.isSome = true ↔
        ∃ e, r.errorResultXdr = some e ∧ e ≠ "")
    ∧ ((parseRawSendTransaction r).2.diagnosticEvents =
        match r.errorResultXdr, r.diagnosticEventsXdr with
        | some e, some evts =>
          if e = "" ∨ evts = [] then none
          else some (evts.map DiagnosticEvent.fromXdr)
        | _, _ => none) := by
  obtain ⟨h1, h2, h3, h4, exdr, dxdr⟩ := r
  cases exdr with
  | none => simp [parseRawSendTransaction]
  | some e =>
    by_cases h : e = ""
    · cases dxdr <;> simp [parseRawSendTransaction, h]
    · cases dxdr with
      | none => simp [parseRawSendTransaction, h]
      | some evts =>
        cases evts with
        | nil => simp [parseRawSendTransaction, h]
        | cons a t => simp [parseRawSendTransaction, h]

/-- C5: a raw ledger-entries response containing an entry with a missing
`key` or missing `xdr` field makes `parseRawLedgerEntries` fail with a
malformed-entry error identifying an offending raw entry of the list, and
no partial result is returned. -/
theorem parseRawLedgerEntries_malformed (raw : RawGetLedgerEntriesResponse)
    (h : ∃ e ∈ raw.entries.getD [], e.key = none ∨ e.xdr = none) :
    ∃ e ∈ raw.entries.getD [],
      (strFalsy e.key || strFalsy e.xdr) = true ∧
      parseRawLedgerEntries raw = .error (.malformedEntry e) := by
  rcases parseLedgerEntryList_malformed _ h with ⟨e, he, hef, heq⟩
  exact ⟨e, he, hef, by simp [parseRawLedgerEntries, heq]⟩

/-- C5 witness: the malformed-entry failure at a concrete response whose
single entry is missing its `key`. -/
theorem parseRawLedgerEntries_malformed_witness :
    ∃ e ∈ malformedEntriesInput.entries.getD [],
      (strFalsy e.key || strFalsy e.xdr) = true ∧
      parseRawLedgerEntries malformedEntriesInput =
        .error (.malformedEntry e) :=
  parseRawLedgerEntries_malformed malformedEntriesInput
    ⟨{ lastModifiedLedgerSeq := some 5, key := none, xdr := some "AAAA",
       liveUntilLedgerSeq := none }, by decide, by decide⟩

/-- C6: `parseRawEvents` omits `contractId` exactly when the raw
contract-identifier string is empty, wraps a non-empty identifier as a
`Contract`, decodes every topic and the value payload, and copies the other
fields. -/
theorem parseRawEvents_contractId (r : RawGetEventsResponse) :
    (parseRawEvents r).latestLedger = r.latestLedger ∧
    List.Forall₂
      (fun (evt : RawEventResponse) (pe : EventResponse) =>
        pe.contractId =
          (if evt.contractId = "" then none
           else some { contractId := evt.contractId }) ∧
        pe.topic = evt.topic.map ScVal.fromXdr ∧
        pe.value = ScVal.fromXdr evt.value ∧
        pe.type = evt.type ∧ pe.ledger = evt.ledger ∧
        pe.ledgerClosedAt = evt.ledgerClosedAt ∧ pe.id = evt.id ∧
        pe.pagingToken = evt.pagingToken ∧
        pe.inSuccessfulContractCall = evt.inSuccessfulContractCall)
      (r.events.getD []) (parseRawEvents r).events := by
  refine ⟨rfl, ?_⟩
  simp only [parseRawEvents]
  rw [List.forall₂_map_right_iff, List.forall₂_same]
  intro evt _
  exact ⟨rfl, rfl, rfl, rfl, rfl, rfl, rfl, rfl, rfl⟩

/-- C7: the parsed transaction info carries the decoded result-metadata, and
its `returnValue` is present iff that metadata's active variant tag is 3 and
the v3 record's `sorobanMeta` sub-record is non-null, in which case it is
the sub-record's return value. -/
theorem parseTransactionInfo_returnValue
    (decodeMeta : String → TransactionMeta) (raw : RawTransactionInfo) :
    ((parseTransactionInfo decodeMeta raw).resultMetaXdr
        = decodeMeta raw.resultMetaXdr)
    ∧ ((parseTransactionInfo decodeMeta raw).returnValue =
        match decodeMeta raw.resultMetaXdr with
        | .v3 m => m.sorobanMeta.map SorobanTransactionMeta.returnValue
        | _ => none)
    ∧ ((parseTransactionInfo decodeMeta raw).returnValue.isSome = true ↔
        ((decodeMeta raw.resultMetaXdr).switch = 3 ∧
          ∃ m, decodeMeta raw.resultMetaXdr = .v3 m
            ∧ m.sorobanMeta.isSome = true)) := by
  cases hm : decodeMeta raw.resultMetaXdr with
  | v0 => simp [parseTransactionInfo, hm, TransactionMeta.switch]
  | v1 => simp [parseTransactionInfo, hm, TransactionMeta.switch]
  | v2 => simp [parseTransactionInfo, hm, TransactionMeta.switch]
  | v3 m =>
    cases hs : m.sorobanMeta with
    | none => simp [parseTransactionInfo, hm, hs, TransactionMeta.switch]
    | some sm => simp [parseTransactionInfo, hm, hs, TransactionMeta.switch]

/-- A concrete raw simulation whose single `results` row carries a present
but empty `xdr` payload. -/
def simEmptyXdrInput : RawSimulateTransactionResponse :=
  { id := "2"
    latestLedger := 42
    error := none
    transactionData := some "AAAA"
    minResourceFee := some "100"
    cost := some { cpuInsns := "1", memBytes := "2" }
    results := some [{ auth := some [], xdr := some "" }]
    stateChanges := none
    restorePreamble := none
    events := some [] }

/-- C8 counterexample: on a raw simulation whose single result row has a
present-but-empty `xdr` payload, the parser substitutes the canonical void
value for `retval` instead of the decoded payload — the payload being
present is not enough, it must also be non-empty. -/
theorem parseSimulation_empty_xdr_counterexample :
    simEmptyXdrInput.results = some [{ auth := some [], xdr := some "" }]
    ∧ (parseRawSimulation (.inr simEmptyXdrInput)).result =
        some { auth := [], retval := ScVal.scvVoid }
    ∧ ScVal.scvVoid ≠ ScVal.fromXdr "" := by
  decide

/-- C8 amended: the single scalar `result` (never a list) is built from the
first element of a present-and-non-empty `results` list, with the `auth`
entries decoded and `retval` equal to the decoded `xdr` payload when that
payload is present **and non-empty** (a falsy payload — absent or empty —
is coalesced to the canonical void value); the `result` field is absent
when the `results` list is empty or absent. -/
theorem parseSuccessful_result_spec (sim : RawSimulateTransactionResponse)
    (baseResp : BaseSimulateTransactionResponse) :
    ((parseSuccessful sim baseResp).result =
      match sim.results with
      | some rows =>
        if rows = [] then none
        else rows.head?.map (fun row =>
          { auth := (row.auth.getD []).map SorobanAuthorizationEntry.fromXdr
            retval :=
              match row.xdr with
              | some x => if x = "" then ScVal.scvVoid else ScVal.fromXdr x
              | none => ScVal.scvVoid })
      | none => none)
    ∧ ((parseSuccessful sim baseResp).result.isSome = true ↔
        ∃ rows, sim.results = some rows ∧ rows ≠ []) := by
  obtain ⟨id, ll, err, td, fee, cost, results, sc, rp, evts⟩ := sim
  cases results with
  | none =>
    cases rp with
    | none => simp [parseSuccessful]
    | some pre => by_cases hd : pre.transactionData = "" <;>
        simp [parseSuccessful, hd]
  | some rows =>
    cases rows with
    | nil =>
      cases rp with
      | none => simp [parseSuccessful]
      | some pre => by_cases hd : pre.transactionData = "" <;>
          simp [parseSuccessful, hd]
    | cons row rest =>
      cases rp with
      | none => simp [parseSuccessful, parseHostFunctionResult]
      | some pre => by_cases hd : pre.transactionData = "" <;>
          simp [parseSuccessful, parseHostFunctionResult, hd]

/-- A concrete raw simulation whose `stateChanges` field is present but an
empty list. -/
def simEmptyStateChangesInput : RawSimulateTransactionResponse :=
  { id := "3"
    latestLedger := 7
    error := none
    transactionData := some "AAAA"
    minResourceFee := some "50"
    cost := some { cpuInsns := "1", memBytes := "2" }
    results := none
    stateChanges := some []
    restorePreamble := none
    events := none }

/-- C9 counterexample: on a raw simulation whose `stateChanges` field is
present (an empty list), the parsed output carries no `stateChanges`
sequence at all — presence of the raw field is not enough, it must also be
non-empty. -/
theorem parseSimulation_empty_stateChanges_counterexample :
    simEmptyStateChangesInput.stateChanges = some []
    ∧ (parseRawSimulation (.inr simEmptyStateChangesInput)).stateChanges
        = none := by
  decide

/-- C9 amended: when the raw `stateChanges` field is present **and
non-empty**, the parsed output carries a `stateChanges` sequence whose
entries copy the type, decode the key, and have before/after snapshots that
are null exactly when the corresponding raw snapshot is absent **or the
empty string** (otherwise the decoded snapshot); with an absent or empty
raw list the field is absent. -/
theorem parseSuccessful_stateChanges_spec
    (sim : RawSimulateTransactionResponse)
    (baseResp : BaseSimulateTransactionResponse) :
    ((parseSuccessful sim baseResp).stateChanges =
      match sim.stateChanges with
      | some changes =>
        if changes = [] then none
        else some (changes.map parseLedgerEntryChange)
      | none => none)
    ∧ ∀ c : RawLedgerEntryChange,
        (parseLedgerEntryChange c).type = c.type
        ∧ (parseLedgerEntryChange c).key = LedgerKey.fromXdr c.key
        ∧ ((parseLedgerEntryChange c).before =
            match c.before with
            | some b => if b = "" then none else some (LedgerEntry.fromXdr b)
            | none => none)
        ∧ ((parseLedgerEntryChange c).after =
            match c.after with
            | some a => if a = "" then none else some (LedgerEntry.fromXdr a)
            | none => none)
        ∧ ((parseLedgerEntryChange c).before = none ↔
            (c.before = none ∨ c.before = some ""))
        ∧ ((parseLedgerEntryChange c).after = none ↔
            (c.after = none ∨ c.after = some "")) := by
  constructor
  · obtain ⟨id, ll, err, td, fee, cost, results, sc, rp, evts⟩ := sim
    cases sc with
    | none =>
      cases rp with
      | none => simp [parseSuccessful]
      | some pre => by_cases hd : pre.transactionData = "" <;>
          simp [parseSuccessful, hd]
    | some changes =>
      cases changes with
      | nil =>
        cases rp with
        | none => simp [parseSuccessful]
        | some pre => by_cases hd : pre.transactionData = "" <;>
            simp [parseSuccessful, hd]
      | cons c rest =>
        cases rp with
        | none => simp [parseSuccessful]
        | some pre => by_cases hd : pre.transactionData = "" <;>
            simp [parseSuccessful, hd]
  · intro c
    obtain ⟨ty, key, before, after⟩ := c
    refine ⟨rfl, rfl, rfl, rfl, ?_, ?_⟩
    · cases before with
      | none => simp [parseLedgerEntryChange]
      | some b => by_cases hb : b = "" <;> simp [parseLedgerEntryChange, hb]
    · cases after with
      | none => simp [parseLedgerEntryChange]
      | some a => by_cases ha : a = "" <;> simp [parseLedgerEntryChange, ha]

/-- C10: on an input whose `events` (respectively `entries`) list field is
absent, `parseRawEvents` (respectively `parseRawLedgerEntries`) does not
fail and returns the empty list for that field. -/
theorem parsers_total_on_absent_lists
    (r : RawGetEventsResponse) (raw : RawGetLedgerEntriesResponse)
    (hr : r.events = none) (hraw : raw.entries = none) :
    (parseRawEvents r).events = [] ∧
    parseRawLedgerEntries raw =
      .ok { latestLedger := raw.latestLedger, entries := [] } := by
  constructor
  · simp [parseRawEvents, hr]
  · simp [parseRawLedgerEntries, hraw, parseLedgerEntryList]

/-- C10 witness: the absent-list totality at concrete inputs. -/
theorem parsers_total_on_absent_lists_witness :
    (parseRawEvents { latestLedger := 1, events := none }).events = [] ∧
    parseRawLedgerEntries { latestLedger := 2, entries := none } =
      .ok { latestLedger := 2, entries := [] } :=
  parsers_total_on_absent_lists
    { latestLedger := 1, events := none }
    { latestLedger := 2, entries := none } rfl rfl

end StellarRpc
